import Mathlib

/-
  Verification development for adeunis2gpx, a converter of Adeunis LoRaWAN
  FTD field-test logs to CSV, GeoJSON and GPX.

  The Python source (adeunis2gpx.py) is shallowly embedded below:
  - machine floats are modelled as rationals (the coordinate arithmetic is
    exact division, so the algebraic claims are unaffected by rounding);
  - Python exceptions are modelled with the `Except PyErr` monad, a
    `try/except ValueError` block with `pyTry`;
  - the in-place mutation of `AdeunisLog.samples` is modelled with explicit
    state passing.
-/

deriving instance DecidableEq for Except

namespace Adeunis

/-- Claim-relevant Python exception classes. -/
inductive PyErr where
  | valueError
  | typeError
deriving DecidableEq, Repr

/-- Characters treated as whitespace by Python `str.split()` (ASCII subset). -/
def isPyWs (c : Char) : Bool :=
  c = ' ' || c = '\t' || c = '\n' || c = '\r' || c = '\x0b' || c = '\x0c'

/-- Worker for `pySplit`: `cur` holds the current token, reversed. -/
def splitAux (cur : List Char) : List Char → List String
  | [] => if cur.isEmpty then [] else [String.mk cur.reverse]
  | c :: cs =>
    if isPyWs c then
      if cur.isEmpty then splitAux [] cs
      else String.mk cur.reverse :: splitAux [] cs
    else splitAux (c :: cur) cs

/-- Python `str.split()` with no argument: split on runs of whitespace,
dropping empty tokens. -/
def pySplit (s : String) : List String :=
  splitAux [] s.toList

/-- Drop leading characters that belong to `set`. -/
def dropIn (set : List Char) : List Char → List Char
  | [] => []
  | c :: cs => if set.contains c then dropIn set cs else c :: cs

/-- Python `str.strip(chars)`: remove from both ends every character that
occurs in `chars`. -/
def pyStrip (s : String) (chars : String) : String :=
  let set := chars.toList
  String.mk ((dropIn set ((dropIn set s.toList).reverse)).reverse)

/-- The whitespace characters `int()`/`float()` ignore around a literal. -/
def wsChars : List Char :=
  [' ', '\t', '\n', '\r', '\x0b', '\x0c']

/-- Trim surrounding whitespace from a character list. -/
def pyTrim (s : List Char) : List Char :=
  (dropIn wsChars ((dropIn wsChars s).reverse)).reverse

/-- Tail of a Python digit group: digits with single underscores strictly
between digits. -/
def digitTail : List Char → Bool
  | [] => true
  | c :: cs =>
    if c.isDigit then digitTail cs
    else if c = '_' then
      match cs with
      | [] => false
      | d :: _ => d.isDigit && digitTail cs
    else false

/-- A valid Python digit group: nonempty, starts with a digit, underscores
only between digits. -/
def digitBody : List Char → Bool
  | [] => false
  | c :: cs => c.isDigit && digitTail cs

/-- Numeric value of a digit group (underscores skipped). -/
def digitsVal (l : List Char) : Nat :=
  l.foldl (fun a c => if c.isDigit then a * 10 + (c.toNat - 48) else a) 0

/-- Signed integer literal after whitespace trimming. -/
def pyIntBody : List Char → Except PyErr Int
  | '+' :: rest => if digitBody rest then .ok (digitsVal rest) else .error .valueError
  | '-' :: rest => if digitBody rest then .ok (-(digitsVal rest : Int)) else .error .valueError
  | rest => if digitBody rest then .ok (digitsVal rest) else .error .valueError

/-- Python `int(text)` on a string: raises `ValueError` on a malformed
literal (ASCII digits; the exotic unicode-digit forms are out of scope). -/
def pyInt (s : String) : Except PyErr Int :=
  pyIntBody (pyTrim s.toList)

/-- Split a character list at the first character satisfying `p`. -/
def findSplit (p : Char → Bool) : List Char → Option (List Char × List Char)
  | [] => none
  | c :: cs =>
    if p c then some ([], cs)
    else
      match findSplit p cs with
      | none => none
      | some (a, b) => some (c :: a, b)

/-- Number of actual digits in a fractional digit group (underscores do not
count toward the decimal scale). -/
def fracLen (l : List Char) : Nat :=
  (l.filter (fun c => c.isDigit)).length

/-- Value of the mantissa of a float literal: `D`, `D.`, `D.D` or `.D`. -/
def mantissaVal (m : List Char) : Option ℚ :=
  match findSplit (fun c => c = '.') m with
  | none => if digitBody m then some ((digitsVal m : ℚ)) else none
  | some (a, b) =>
    if a.isEmpty then
      if digitBody b then some ((digitsVal b : ℚ) / (10 : ℚ) ^ fracLen b) else none
    else if b.isEmpty then
      if digitBody a then some ((digitsVal a : ℚ)) else none
    else
      if digitBody a && digitBody b then
        some ((digitsVal a : ℚ) + (digitsVal b : ℚ) / (10 : ℚ) ^ fracLen b)
      else none

/-- Signed exponent part of a float literal. -/
def expVal : List Char → Option Int
  | '+' :: rest => if digitBody rest then some (digitsVal rest) else none
  | '-' :: rest => if digitBody rest then some (-(digitsVal rest : Int)) else none
  | rest => if digitBody rest then some (digitsVal rest) else none

/-- Scale a rational by a signed power of ten. -/
def scaleExp (q : ℚ) (e : Int) : ℚ :=
  if 0 ≤ e then q * (10 : ℚ) ^ e.toNat else q / (10 : ℚ) ^ (-e).toNat

/-- Unsigned float literal: mantissa with optional `e`/`E` exponent. -/
def pyFloatBody (l : List Char) : Option ℚ :=
  match findSplit (fun c => c = 'e' || c = 'E') l with
  | none => mantissaVal l
  | some (m, e) =>
    match mantissaVal m, expVal e with
    | some q, some x => some (scaleExp q x)
    | _, _ => none

/-- Optionally signed float literal. -/
def pyFloatSigned : List Char → Option ℚ
  | '+' :: rest => pyFloatBody rest
  | '-' :: rest => (pyFloatBody rest).map Neg.neg
  | rest => pyFloatBody rest

/-- Python `float(text)` as an exact rational: raises `ValueError` on a
malformed literal.  `inf`/`nan` have no rational image and are outside this
embedding (no claim exercises them). -/
def pyFloat (s : String) : Except PyErr ℚ :=
  match pyFloatSigned (pyTrim s.toList) with
  | some q => .ok q
  | none => .error .valueError

/-- A `try: return EXPR  except ValueError: return None` block around an
expression of the exception monad: `ValueError` degrades to `none`, any
other exception keeps propagating. -/
def pyTry {α : Type} (e : Except PyErr α) : Except PyErr (Option α) :=
  match e with
  | .ok v => .ok (some v)
  | .error .valueError => .ok none
  | .error .typeError => .error .typeError

/-- Source `parseDB`: `int(text.strip("dB"))` guarded by `except ValueError`. -/
def parseDB (text : String) : Except PyErr (Option Int) :=
  pyTry (pyInt (pyStrip text "dB"))

/-- Source `parseFrequency`: `int(text.strip("kHz")) * 1000` guarded. -/
def parseFrequency (text : String) : Except PyErr (Option Int) :=
  pyTry ((pyInt (pyStrip text "kHz")).map (fun n => n * 1000))

/-- Source `parsePercent`: `int(text.strip("%"))` guarded. -/
def parsePercent (text : String) : Except PyErr (Option Int) :=
  pyTry (pyInt (pyStrip text "%"))

/-- Source `parsePower`: `int(text.strip("dBm"))` guarded. -/
def parsePower (text : String) : Except PyErr (Option Int) :=
  pyTry (pyInt (pyStrip text "dBm"))

/-- Source `parseQ`: `int(text)` guarded. -/
def parseQ (text : String) : Except PyErr (Option Int) :=
  pyTry (pyInt text)

/-- Source `parseSF`: `int(text.strip("SF"))` guarded. -/
def parseSF (text : String) : Except PyErr (Option Int) :=
  pyTry (pyInt (pyStrip text "SF"))

/-- Time-of-day value as produced by `datetime.time`. -/
structure PyTime where
  hour : Nat
  minute : Nat
  second : Nat
deriving DecidableEq, Repr

/-- Read a two-digit component. -/
def twoDigits (a b : Char) : Option Nat :=
  if a.isDigit && b.isDigit then some ((a.toNat - 48) * 10 + (b.toNat - 48)) else none

/-- The `datetime.time` constructor's range checks. -/
def timeOfParts (h m s : Nat) : Except PyErr PyTime :=
  if h ≤ 23 && m ≤ 59 && s ≤ 59 then .ok ⟨h, m, s⟩ else .error .valueError

/-- Python `time.fromisoformat`: `HH`, `HH:MM` or `HH:MM:SS`, two digits
each, range-checked; raises `ValueError` otherwise.  Fractional seconds and
UTC offsets are outside this embedding (no log token carries them). -/
def pyTimeFromIso (s : String) : Except PyErr PyTime :=
  match s.toList with
  | [h1, h2] =>
    match twoDigits h1 h2 with
    | some h => timeOfParts h 0 0
    | none => .error .valueError
  | [h1, h2, ':', m1, m2] =>
    match twoDigits h1 h2, twoDigits m1 m2 with
    | some h, some m => timeOfParts h m 0
    | _, _ => .error .valueError
  | [h1, h2, ':', m1, m2, ':', s1, s2] =>
    match twoDigits h1 h2, twoDigits m1 m2, twoDigits s1 s2 with
    | some h, some m, some sec => timeOfParts h m sec
    | _, _, _ => .error .valueError
  | _ => .error .valueError

/-- Source `parseTime`: `time.fromisoformat(text)` guarded. -/
def parseTime (text : String) : Except PyErr (Option PyTime) :=
  pyTry (pyTimeFromIso text)

/-- Source `dms2dd`: degrees/minutes/seconds plus hemisphere letter to
signed decimal degrees; no range validation. -/
def dms2dd (degrees minutes seconds : ℚ) (direction : String) : ℚ :=
  let dd := degrees + minutes / 60 + seconds / (60 * 60)
  if direction = "S" ∨ direction = "W" then -dd else dd

/-- One measurement record, mirroring the `AdeunisSample` namedtuple.
Fields that the source may set to `None` are `Option`s; `ul` and `dl` come
from unguarded `int()` calls and are always present. -/
structure AdeunisSample where
  time : Option PyTime
  latitude : Option ℚ
  longitude : Option ℚ
  uSF : Option Int
  uFrequency : Option Int
  uPower : Option Int
  uSNR : Option Int
  uQ : Option Int
  dSF : Option Int
  dFrequency : Option Int
  dRSSI : Option Int
  dSNR : Option Int
  dQ : Option Int
  ul : Int
  dl : Int
  per : Option Int
deriving DecidableEq, Repr

/-- Python truthiness of an optional int: `None` and `0` are falsy. -/
def truthyInt (o : Option Int) : Bool :=
  match o with
  | none => false
  | some n => n != 0

/-- Python truthiness of an optional float: `None` and `0.0` are falsy. -/
def truthyQ (o : Option ℚ) : Bool :=
  match o with
  | none => false
  | some q => q != 0

/-- Python truthiness of an optional `time`: every `time` value is truthy
(Python ≥ 3.5), so only `None` is falsy. -/
def truthyTime (o : Option PyTime) : Bool :=
  o.isSome

/-- The expression `dms2dd(float(a), float(b), float(c), dir)`: any of the
three `float()` calls may raise `ValueError`. -/
def dmsExc (a b c direction : String) : Except PyErr ℚ := do
  let x ← pyFloat a
  let y ← pyFloat b
  let z ← pyFloat c
  pure (dms2dd x y z direction)

/-- Build one sample from the 22 tokens of a log line, in the source's
evaluation order: the two guarded coordinate conversions, then the
constructor arguments left to right.  Only the two unguarded `int()` calls
on tokens 19 (`ul`) and 20 (`dl`) can raise. -/
def mkSample (fields : List String) : Except PyErr AdeunisSample := do
  let f := fun i => fields.getD i ""
  let lat ← pyTry (dmsExc (f 1) (f 2) (f 3) (f 4))
  let lon ← pyTry (dmsExc (f 5) (f 6) (f 7) (f 8))
  let t ← parseTime (f 0)
  let usf ← parseSF (f 9)
  let ufreq ← parseFrequency (f 10)
  let upow ← parsePower (f 11)
  let usnr ← parseDB (f 12)
  let uq ← parseQ (f 13)
  let dsf ← parseSF (f 14)
  let dfreq ← parseFrequency (f 15)
  let drssi ← parsePower (f 16)
  let dsnr ← parseDB (f 17)
  let dq ← parseQ (f 18)
  let ul ← pyInt (f 19)
  let dl ← pyInt (f 20)
  let per ← parsePercent (f 21)
  pure ⟨t, lat, lon, usf, ufreq, upow, usnr, uq, dsf, dfreq, drssi, dsnr, dq, ul, dl, per⟩

/-- The loop body of `AdeunisLog.parse` over a list of input lines,
threading the accumulated sample list.  A raised exception aborts the loop,
leaving the samples appended so far in place. -/
def parseLines (samples : List AdeunisSample) : List String → List AdeunisSample × Option PyErr
  | [] => (samples, none)
  | line :: rest =>
    let fields := pySplit line
    if fields.length = 22 then
      match mkSample fields with
      | .ok s => parseLines (samples ++ [s]) rest
      | .error e => (samples, some e)
    else parseLines samples rest

/-- The mutable log object: its only state is the sample list. -/
structure AdeunisLog where
  samples : List AdeunisSample
deriving DecidableEq, Repr

/-- Source `AdeunisLog.parse`, with the mutation of `self.samples` made
explicit: returns the updated log and the exception that escaped, if any. -/
def AdeunisLog.parse (log : AdeunisLog) (lines : List String) : AdeunisLog × Option PyErr :=
  let (s, e) := parseLines log.samples lines
  (⟨s⟩, e)

/-- Calendar date supplied on the command line. -/
structure PyDate where
  year : Nat
  month : Nat
  day : Nat
deriving DecidableEq, Repr

/-- Zero-pad to two digits. -/
def pad2 (n : Nat) : String :=
  if n < 10 then "0" ++ toString n else toString n

/-- Zero-pad to four digits. -/
def pad4 (n : Nat) : String :=
  if n < 10 then "000" ++ toString n
  else if n < 100 then "00" ++ toString n
  else if n < 1000 then "0" ++ toString n
  else toString n

/-- Python `str(datetime.combine(day, t))`: ISO date and time joined by a
space (microseconds are zero here and therefore omitted). -/
def pyDatetimeStr (d : PyDate) (t : PyTime) : String :=
  pad4 d.year ++ "-" ++ pad2 d.month ++ "-" ++ pad2 d.day ++ " " ++
    pad2 t.hour ++ ":" ++ pad2 t.minute ++ ":" ++ pad2 t.second

/-- The retained-sample filter shared by the three serializers:
`if not (sample.latitude or sample.longitude): continue`. -/
def keepSample (s : AdeunisSample) : Bool :=
  truthyQ s.latitude || truthyQ s.longitude

/-- One CSV cell as handed to `csv.writer`, before text encoding. -/
inductive CSVCell where
  | empty
  | int (n : Int)
  | rat (q : ℚ)
  | str (s : String)
  | timestamp (d : PyDate) (t : PyTime)
deriving DecidableEq, Repr

/-- Optional int cell: `None` renders as the empty cell. -/
def cellOptInt : Option Int → CSVCell
  | none => .empty
  | some n => .int n

/-- Optional float cell. -/
def cellOptQ : Option ℚ → CSVCell
  | none => .empty
  | some q => .rat q

/-- The CSV header row. -/
def csvHeader : List CSVCell :=
  [.str "timestamp", .str "latitude", .str "longitude",
   .str "uSF", .str "uFrequency", .str "uPower", .str "uSNR", .str "uQ",
   .str "dSF", .str "dFrequency", .str "dRSSI", .str "dSNR", .str "dQ",
   .str "ul", .str "dl", .str "PER"]

/-- One CSV data row for a retained sample. -/
def csvRow (day : PyDate) (s : AdeunisSample) : List CSVCell :=
  let ts := if truthyTime s.time then CSVCell.timestamp day (s.time.getD ⟨0, 0, 0⟩)
            else CSVCell.empty
  [ts, cellOptQ s.latitude, cellOptQ s.longitude,
   cellOptInt s.uSF, cellOptInt s.uFrequency, cellOptInt s.uPower,
   cellOptInt s.uSNR, cellOptInt s.uQ,
   cellOptInt s.dSF, cellOptInt s.dFrequency, cellOptInt s.dRSSI,
   cellOptInt s.dSNR, cellOptInt s.dQ,
   .int s.ul, .int s.dl, cellOptInt s.per]

/-- The data rows of `AdeunisLog.toCSV`, in sample order. -/
def csvRows (day : PyDate) : List AdeunisSample → List (List CSVCell)
  | [] => []
  | s :: rest =>
    if keepSample s then csvRow day s :: csvRows day rest
    else csvRows day rest

/-- JSON value occurring in a GeoJSON properties mapping. -/
inductive JValue where
  | null
  | int (n : Int)
  | str (s : String)
deriving DecidableEq, Repr

/-- Optional int as a JSON value: `None` becomes JSON `null`. -/
def jOptInt : Option Int → JValue
  | none => .null
  | some n => .int n

/-- A conditional single-entry property block: `if c: data[key] = v`. -/
def jItem (c : Bool) (key : String) (v : JValue) : List (String × JValue) :=
  if c then [(key, v)] else []

/-- The properties dict built by `AdeunisSample.toGeoJSON`, in insertion
order, given the already-combined timestamp components. -/
def geoProps (day : PyDate) (t : PyTime) (s : AdeunisSample) : List (String × JValue) :=
  [("timestamp", JValue.str (pyDatetimeStr day t)),
   ("ul", JValue.int s.ul),
   ("dl", JValue.int s.dl),
   ("PER", jOptInt s.per)]
  ++ jItem (truthyInt s.uSF) "uSF" (jOptInt s.uSF)
  ++ jItem (truthyInt s.uFrequency) "uFrequency" (jOptInt s.uFrequency)
  ++ jItem (truthyInt s.uPower) "uPower" (jOptInt s.uPower)
  ++ jItem (truthyInt s.uSNR) "uSNR" (jOptInt s.uSNR)
  ++ jItem (truthyInt s.uQ) "uQ" (jOptInt s.uQ)
  ++ (if truthyInt s.dFrequency then
        jItem (truthyInt s.dSF) "dSF" (jOptInt s.dSF)
        ++ jItem (truthyInt s.dFrequency) "dFrequency" (jOptInt s.dFrequency)
        ++ jItem (truthyInt s.dRSSI) "dRSSI" (jOptInt s.dRSSI)
        ++ jItem (truthyInt s.dSNR) "dSNR" (jOptInt s.dSNR)
        ++ jItem (truthyInt s.dQ) "dQ" (jOptInt s.dQ)
      else [])

/-- One GeoJSON Feature: a point geometry `(longitude, latitude)` plus the
properties mapping. -/
structure Feature where
  geometry : Option ℚ × Option ℚ
  properties : List (String × JValue)
deriving DecidableEq, Repr

/-- Source `AdeunisSample.toGeoJSON`.  The very first statement is
`datetime.combine(day, self.time)`, which raises `TypeError` when
`self.time` is `None` — this call is not guarded. -/
def AdeunisSample.toGeoJSON (s : AdeunisSample) (day : PyDate) : Except PyErr Feature :=
  match s.time with
  | none => .error .typeError
  | some t => .ok ⟨(s.longitude, s.latitude), geoProps day t s⟩

/-- The feature list built by `AdeunisLog.toGeoJSON`; an exception raised
by a sample's `toGeoJSON` aborts the whole serialization. -/
def geoFeatures (day : PyDate) : List AdeunisSample → Except PyErr (List Feature)
  | [] => .ok []
  | s :: rest =>
    if keepSample s then do
      let f ← s.toGeoJSON day
      let fs ← geoFeatures day rest
      pure (f :: fs)
    else geoFeatures day rest

/-- XML element: tag, attributes, text and child elements. -/
inductive XML where
  | elem (tag : String) (attrs : List (String × String)) (text : Option String) (children : List XML)
deriving Repr

/-- Tag of an element. -/
def XML.tagOf : XML → String
  | .elem t _ _ _ => t

/-- Children of an element. -/
def XML.childrenOf : XML → List XML
  | .elem _ _ _ c => c

/-- Source helper for qualified XML names (called `namePrefix` there):
`":".join(filter(None, (namespace, tag)))`. -/
def nameNS (tag : String) (ns : Option String) : String :=
  String.intercalate ":" (([ns.getD "", tag]).filter (fun x => x != ""))

/-- A conditional leaf sub-element carrying text. -/
def xItem (c : Bool) (tag : String) (txt : String) : List XML :=
  if c then [XML.elem tag [] (some txt) []] else []

/-- Python `f"{n:+}"`: always show the sign. -/
def fmtPlus (n : Int) : String :=
  if 0 ≤ n then "+" ++ toString n else toString n

/-- Python `f"{o}"` on an optional int: `None` prints as "None". -/
def pyReprOptInt : Option Int → String
  | none => "None"
  | some n => toString n

/-- Source `AdeunisSample.toXML`: the namespaced extension tree attached to
each GPX waypoint.  The downlink sub-element exists only when `dFrequency`
is truthy. -/
def AdeunisSample.toXML (s : AdeunisSample) (ns rootTag : String) : XML :=
  let n := some ns
  let uplink := XML.elem (nameNS "uplink" n) [] none
    (xItem (truthyInt s.uSF) (nameNS "spreading-factor" n) (pyReprOptInt s.uSF)
     ++ xItem (truthyInt s.uFrequency) (nameNS "frequency" n) (pyReprOptInt s.uFrequency)
     ++ xItem (truthyInt s.uPower) (nameNS "power" n) (fmtPlus (s.uPower.getD 0))
     ++ xItem (truthyInt s.uSNR) (nameNS "SNR" n) (fmtPlus (s.uSNR.getD 0))
     ++ xItem (truthyInt s.uQ) (nameNS "quality" n) (pyReprOptInt s.uQ))
  let downlink :=
    if truthyInt s.dFrequency then
      [XML.elem (nameNS "downlink" n) [] none
        (xItem (truthyInt s.dSF) (nameNS "spreading-factor" n) (pyReprOptInt s.dSF)
         ++ xItem (truthyInt s.dFrequency) (nameNS "frequency" n) (pyReprOptInt s.dFrequency)
         ++ xItem (truthyInt s.dRSSI) (nameNS "RSSI" n) (fmtPlus (s.dRSSI.getD 0))
         ++ xItem (truthyInt s.dSNR) (nameNS "SNR" n) (fmtPlus (s.dSNR.getD 0))
         ++ xItem (truthyInt s.dQ) (nameNS "quality" n) (pyReprOptInt s.dQ))]
    else []
  let counters := XML.elem (nameNS "counters" n) [] none
    [XML.elem (nameNS "sent" n) [] (some (toString s.ul)) [],
     XML.elem (nameNS "received" n) [] (some (toString s.dl)) [],
     XML.elem (nameNS "error-rate" n) [] (some (pyReprOptInt s.per ++ "%")) []]
  XML.elem (nameNS rootTag n)
    [(nameNS ns (some "xmlns"), "http://www.example.org/adeunis2gpx")] none
    ([uplink] ++ downlink ++ [counters])

/-- Source `AdeunisLog.Q_SYMBOL_MISSING`. -/
def Q_SYMBOL_MISSING : String := "Navaid, Black"

/-- Source `AdeunisLog.Q_SYMBOL_UNKNOWN`. -/
def Q_SYMBOL_UNKNOWN : String := "Navaid, White"

/-- Source `AdeunisLog.Q_SYMBOLS` dict, as a partial map. -/
def Q_SYMBOLS (q : Int) : Option String :=
  if q = 0 then some "Navaid, Red"
  else if q = 1 then some "Navaid, Orange"
  else if q = 2 then some "Navaid, Amber"
  else if q = 3 then some "Navaid, Green"
  else none

/-- Marker symbol selection in `AdeunisLog.toGPX`:
`symbol = Q_SYMBOL_MISSING` then the `downlink`/`uplink` branches, each
gated on the truthiness of the respective quality field. -/
def symbolFor (markers : String) (s : AdeunisSample) : String :=
  if markers = "cross" then "Crossing"
  else if markers = "downlink" && truthyInt s.dQ then
    (Q_SYMBOLS (s.dQ.getD 0)).getD Q_SYMBOL_UNKNOWN
  else if markers = "uplink" && truthyInt s.uQ then
    (Q_SYMBOLS (s.uQ.getD 0)).getD Q_SYMBOL_UNKNOWN
  else Q_SYMBOL_MISSING

/-- Fuel-bounded decimal expansion of `num/den` (`num < den`), stopping at
the first zero remainder.  Exact for the terminating fractions produced by
the frequency displays below. -/
def decDigits (fuel num den : Nat) : List Char :=
  match fuel, num with
  | 0, _ => []
  | _, 0 => []
  | f + 1, m => Char.ofNat (48 + m * 10 / den) :: decDigits f (m * 10 % den) den

/-- Python `str()` of a nonnegative-exponent float, as a decimal string
(used for `frequency / 1e6`, always a terminating fraction). -/
def pyFloatRepr (q : ℚ) : String :=
  let sign := if q < 0 then "-" else ""
  let a := |q|
  let ip := a.floor.toNat
  let frac := a - (ip : ℚ)
  let digits := if frac = 0 then "0" else String.mk (decDigits 17 frac.num.toNat frac.den)
  sign ++ toString ip ++ "." ++ digits

/-- One GPX waypoint as assembled by the loop body of `AdeunisLog.toGPX`
(the gpxpy field writes, before XML text encoding). -/
structure GPXPoint where
  latitude : Option ℚ
  longitude : Option ℚ
  time : Option (PyDate × PyTime)
  name : String
  symbol : String
  description : String
  extensions : List XML
  source : String
  pointType : String
deriving Repr

/-- The waypoint built for one retained sample, following the source's
formatting strings (the `???` runs are the replacement characters present
verbatim in the source file). -/
def gpxPoint (day : PyDate) (markers : String) (s : AdeunisSample) : GPXPoint :=
  let timestamp := if truthyTime s.time then some (day, s.time.getD ⟨0, 0, 0⟩) else none
  let uSFs := if truthyInt s.uSF then "SF" ++ pyReprOptInt s.uSF else "-"
  let dSFs := if truthyInt s.dSF then "SF" ++ pyReprOptInt s.dSF else "-"
  let uSNRs := if truthyInt s.uSNR then fmtPlus (s.uSNR.getD 0) ++ "???" else "-"
  let dSNRs := if truthyInt s.dSNR then fmtPlus (s.dSNR.getD 0) ++ "???" else "-"
  let uFreqs := if truthyInt s.uFrequency then
      pyFloatRepr ((s.uFrequency.getD 0 : ℚ) / 1000000) ++ "MHz" else "-"
  let dFreqs := if truthyInt s.dFrequency then
      pyFloatRepr ((s.dFrequency.getD 0 : ℚ) / 1000000) ++ "MHz" else "-"
  let uPows := if truthyInt s.uPower then fmtPlus (s.uPower.getD 0) ++ "???m" else "-"
  let dRSSIs := if truthyInt s.dRSSI then fmtPlus (s.dRSSI.getD 0) ++ "???m" else "-"
  let uQs := if truthyInt s.uQ then pyReprOptInt s.uQ else "-"
  let dQs := if truthyInt s.dQ then pyReprOptInt s.dQ else "-"
  let nameD := if truthyInt s.dRSSI then some ("???" ++ dRSSIs ++ "???" ++ dSNRs) else none
  let nameU := if truthyInt s.uSNR then some ("???" ++ uSNRs) else none
  let joined := String.intercalate " " ((([nameD, nameU]).filterMap id).filter (fun x => x != ""))
  let name := if joined = "" then "???" else joined
  let description :=
    "Uplink:   " ++ uSFs ++ " @ " ++ uFreqs ++ ", Power: " ++ uPows ++
      ", SNR: " ++ uSNRs ++ ", Q: " ++ uQs ++ "\n" ++
    "Downlink: " ++ dSFs ++ " @ " ++ dFreqs ++ ", RSSI: " ++ dRSSIs ++
      ", SNR: " ++ dSNRs ++ ", Q: " ++ dQs ++ "\n" ++
    "Counters: Upload: " ++ toString s.ul ++ ", Download: " ++ toString s.dl ++
      ", PER: " ++ pyReprOptInt s.per ++ "%"
  { latitude := s.latitude
    longitude := s.longitude
    time := timestamp
    name := name
    symbol := symbolFor markers s
    description := description
    extensions := [s.toXML "lora" "TrackPointExtension"]
    source := "Adeunis LoRaWAN Field Test Device"
    pointType := "field sample" }

/-- The waypoint list of `AdeunisLog.toGPX`, in sample order. -/
def gpxPoints (day : PyDate) (markers : String) : List AdeunisSample → List GPXPoint
  | [] => []
  | s :: rest =>
    if keepSample s then gpxPoint day markers s :: gpxPoints day markers rest
    else gpxPoints day markers rest

/-- Source `AdeunisLog.toCSV`, with the log state threaded explicitly:
the method reads `self.samples` and mutates nothing. -/
def AdeunisLog.toCSV (log : AdeunisLog) (day : PyDate) : List (List CSVCell) × AdeunisLog :=
  (csvHeader :: csvRows day log.samples, log)

/-- Source `AdeunisLog.toGeoJSON`, state threaded explicitly. -/
def AdeunisLog.toGeoJSON (log : AdeunisLog) (day : PyDate) :
    Except PyErr (List Feature) × AdeunisLog :=
  (geoFeatures day log.samples, log)

/-- Source `AdeunisLog.toGPX`, state threaded explicitly. -/
def AdeunisLog.toGPX (log : AdeunisLog) (day : PyDate) (markers : String) :
    List GPXPoint × AdeunisLog :=
  (gpxPoints day markers log.samples, log)

/-- A Python expression that either returns a value or raises `ValueError`
(the only exception class the guarded field parsers can see). -/
def okOrVE {α : Type} (e : Except PyErr α) : Prop :=
  e = .error .valueError ∨ ∃ v, e = .ok v

lemma okOrVE_pyTry {α : Type} {e : Except PyErr α} (h : okOrVE e) :
    ∃ v, pyTry e = .ok v := by
  rcases h with h | ⟨v, h⟩ <;> subst h <;> exact ⟨_, rfl⟩

lemma pyIntBody_cases (l : List Char) : okOrVE (pyIntBody l) := by
  unfold okOrVE pyIntBody
  split <;> split_ifs <;> first
    | exact Or.inr ⟨_, rfl⟩
    | exact Or.inl rfl

lemma pyInt_cases (s : String) : okOrVE (pyInt s) :=
  pyIntBody_cases (pyTrim s.toList)

lemma pyFloat_cases (s : String) : okOrVE (pyFloat s) := by
  unfold okOrVE pyFloat
  split
  · exact Or.inr ⟨_, rfl⟩
  · exact Or.inl rfl

lemma map_okOrVE {e : Except PyErr Int} (f : Int → Int) (h : okOrVE e) :
    okOrVE (e.map f) := by
  rcases h with h | ⟨v, h⟩ <;> subst h
  · exact Or.inl rfl
  · exact Or.inr ⟨f v, rfl⟩

lemma timeOfParts_cases (h m s : Nat) : okOrVE (timeOfParts h m s) := by
  unfold okOrVE timeOfParts
  split_ifs
  · exact Or.inr ⟨_, rfl⟩
  · exact Or.inl rfl

lemma pyTimeFromIso_cases (s : String) : okOrVE (pyTimeFromIso s) := by
  unfold pyTimeFromIso
  split <;> first
    | exact Or.inl rfl
    | (split <;> first
        | apply timeOfParts_cases
        | exact Or.inl rfl)

lemma parseSF_ok (text : String) : ∃ v, parseSF text = .ok v :=
  okOrVE_pyTry (pyInt_cases _)

lemma parseFrequency_ok (text : String) : ∃ v, parseFrequency text = .ok v :=
  okOrVE_pyTry (map_okOrVE _ (pyInt_cases _))

lemma parsePower_ok (text : String) : ∃ v, parsePower text = .ok v :=
  okOrVE_pyTry (pyInt_cases _)

lemma parseDB_ok (text : String) : ∃ v, parseDB text = .ok v :=
  okOrVE_pyTry (pyInt_cases _)

lemma parseQ_ok (text : String) : ∃ v, parseQ text = .ok v :=
  okOrVE_pyTry (pyInt_cases _)

lemma parsePercent_ok (text : String) : ∃ v, parsePercent text = .ok v :=
  okOrVE_pyTry (pyInt_cases _)

lemma parseTime_ok (text : String) : ∃ v, parseTime text = .ok v :=
  okOrVE_pyTry (pyTimeFromIso_cases _)

/-- Claim C3: every field parser (`parseSF`, `parseFrequency`, `parsePower`,
`parseDB`, `parseQ`, `parsePercent`, `parseTime`) terminates normally on
every input string, returning a parsed value or the absent marker, and
never propagates an exception to its caller. -/
theorem claim_C3 (text : String) :
    (∃ v, parseSF text = .ok v) ∧ (∃ v, parseFrequency text = .ok v) ∧
    (∃ v, parsePower text = .ok v) ∧ (∃ v, parseDB text = .ok v) ∧
    (∃ v, parseQ text = .ok v) ∧ (∃ v, parsePercent text = .ok v) ∧
    (∃ v, parseTime text = .ok v) :=
  ⟨parseSF_ok text, parseFrequency_ok text, parsePower_ok text, parseDB_ok text,
   parseQ_ok text, parsePercent_ok text, parseTime_ok text⟩

/-- Claim C7: the unit-suffix parsers strip their unit and parse the rest
as an integer — `"12dBm"` gives 12, `"-7dB"` gives −7, `"868000kHz"` gives
868000000 Hz, `"SF7"` gives 7 — and each returns the absent marker on the
malformed token `"xx"`. -/
theorem claim_C7 :
    parsePower "12dBm" = .ok (some 12) ∧
    parseDB "-7dB" = .ok (some (-7)) ∧
    parseFrequency "868000kHz" = .ok (some 868000000) ∧
    parseSF "SF7" = .ok (some 7) ∧
    parsePower "xx" = .ok none ∧
    parseDB "xx" = .ok none ∧
    parseFrequency "xx" = .ok none ∧
    parseSF "xx" = .ok none := by
  refine ⟨?_, ?_, ?_, ?_, ?_, ?_, ?_, ?_⟩ <;> decide

/-- Claim C8: `dms2dd` returns `degrees + minutes/60 + seconds/3600`,
negated exactly when the hemisphere is "S" or "W", with no range
validation; `dms2dd 40 26 46 "N"` is ≈ 40.4461 and the "S" variant its
negation ≈ −40.4461. -/
theorem claim_C8 :
    (∀ (d m s : ℚ) (dir : String),
      dms2dd d m s dir =
        if dir = "S" ∨ dir = "W" then -(d + m / 60 + s / 3600)
        else d + m / 60 + s / 3600) ∧
    |dms2dd 40 26 46 "N" - 40.4461| < 1 / 1000 ∧
    |dms2dd 40 26 46 "S" - (-40.4461)| < 1 / 1000 := by
  refine ⟨?_, ?_, ?_⟩
  · intro d m s dir
    unfold dms2dd
    by_cases h1 : dir = "S" <;> by_cases h2 : dir = "W" <;>
      simp [h1, h2] <;> norm_num
  · have h : dms2dd 40 26 46 "N" = 72803 / 1800 := by
      unfold dms2dd
      rw [if_neg (by decide)]
      norm_num
    rw [h, abs_sub_lt_iff]
    constructor <;> norm_num
  · have h : dms2dd 40 26 46 "S" = -(72803 / 1800) := by
      unfold dms2dd
      rw [if_pos (by decide)]
      norm_num
    rw [h, abs_sub_lt_iff]
    constructor <;> norm_num

/-- Claim C9: each serializer is a pure read of the log — invoking it twice
with the same arguments yields identical output and leaves the sample list
unchanged. -/
theorem claim_C9 (log : AdeunisLog) (day : PyDate) (markers : String) :
    (log.toCSV day).2 = log ∧
    ((log.toCSV day).2.toCSV day).1 = (log.toCSV day).1 ∧
    (log.toGeoJSON day).2 = log ∧
    ((log.toGeoJSON day).2.toGeoJSON day).1 = (log.toGeoJSON day).1 ∧
    (log.toGPX day markers).2 = log ∧
    ((log.toGPX day markers).2.toGPX day markers).1 = (log.toGPX day markers).1 :=
  ⟨rfl, rfl, rfl, rfl, rfl, rfl⟩

/-- Whether an expression of the exception monad returned normally. -/
def isOkE {α : Type} : Except PyErr α → Bool
  | .ok _ => true
  | .error _ => false

lemma isOkE_exists {α : Type} {e : Except PyErr α} (h : isOkE e = true) :
    ∃ v, e = .ok v := by
  cases e with
  | ok v => exact ⟨v, rfl⟩
  | error err => simp [isOkE] at h

@[simp] lemma bindE_ok {α β : Type} (a : α) (f : α → Except PyErr β) :
    (Except.ok a : Except PyErr α) >>= f = f a := rfl

@[simp] lemma bindE_err {α β : Type} (e : PyErr) (f : α → Except PyErr β) :
    (Except.error e : Except PyErr α) >>= f = .error e := rfl

@[simp] lemma mapE_ok {α β : Type} (f : α → β) (a : α) :
    f <$> (Except.ok a : Except PyErr α) = .ok (f a) := rfl

@[simp] lemma mapE_err {α β : Type} (f : α → β) (e : PyErr) :
    f <$> (Except.error e : Except PyErr α) = .error e := rfl

@[simp] lemma pureE {α : Type} (a : α) :
    (pure a : Except PyErr α) = .ok a := rfl

lemma okOrVE_dmsExc (a b c d : String) : okOrVE (dmsExc a b c d) := by
  unfold dmsExc
  rcases pyFloat_cases a with ha | ⟨x, ha⟩
  · exact Or.inl (by simp [ha])
  rcases pyFloat_cases b with hb | ⟨y, hb⟩
  · exact Or.inl (by simp [ha, hb])
  rcases pyFloat_cases c with hc | ⟨z, hc⟩
  · exact Or.inl (by simp [ha, hb, hc])
  · exact Or.inr ⟨dms2dd x y z d, by simp [ha, hb, hc]⟩

lemma mkSample_ok (fields : List String)
    (h19 : isOkE (pyInt (fields.getD 19 "")) = true)
    (h20 : isOkE (pyInt (fields.getD 20 "")) = true) :
    ∃ smp, mkSample fields = .ok smp := by
  obtain ⟨lat, hlat⟩ := okOrVE_pyTry (okOrVE_dmsExc (fields.getD 1 "") (fields.getD 2 "")
    (fields.getD 3 "") (fields.getD 4 ""))
  obtain ⟨lon, hlon⟩ := okOrVE_pyTry (okOrVE_dmsExc (fields.getD 5 "") (fields.getD 6 "")
    (fields.getD 7 "") (fields.getD 8 ""))
  obtain ⟨t, ht⟩ := parseTime_ok (fields.getD 0 "")
  obtain ⟨a9, h9⟩ := parseSF_ok (fields.getD 9 "")
  obtain ⟨a10, h10⟩ := parseFrequency_ok (fields.getD 10 "")
  obtain ⟨a11, h11⟩ := parsePower_ok (fields.getD 11 "")
  obtain ⟨a12, h12⟩ := parseDB_ok (fields.getD 12 "")
  obtain ⟨a13, h13⟩ := parseQ_ok (fields.getD 13 "")
  obtain ⟨a14, h14⟩ := parseSF_ok (fields.getD 14 "")
  obtain ⟨a15, h15⟩ := parseFrequency_ok (fields.getD 15 "")
  obtain ⟨a16, h16⟩ := parsePower_ok (fields.getD 16 "")
  obtain ⟨a17, h17⟩ := parseDB_ok (fields.getD 17 "")
  obtain ⟨a18, h18⟩ := parseQ_ok (fields.getD 18 "")
  obtain ⟨n19, hn19⟩ := isOkE_exists h19
  obtain ⟨n20, hn20⟩ := isOkE_exists h20
  obtain ⟨p21, hp21⟩ := parsePercent_ok (fields.getD 21 "")
  refine ⟨⟨t, lat, lon, a9, a10, a11, a12, a13, a14, a15, a16, a17, a18, n19, n20, p21⟩, ?_⟩
  unfold mkSample
  simp only [hlat, hlon, ht, h9, h10, h11, h12, h13, h14, h15, h16, h17, h18,
    hn19, hn20, hp21, bindE_ok, pureE]

lemma mkSample_err (fields : List String)
    (hbad : (isOkE (pyInt (fields.getD 19 "")) && isOkE (pyInt (fields.getD 20 ""))) = false) :
    ∃ e, mkSample fields = .error e := by
  obtain ⟨lat, hlat⟩ := okOrVE_pyTry (okOrVE_dmsExc (fields.getD 1 "") (fields.getD 2 "")
    (fields.getD 3 "") (fields.getD 4 ""))
  obtain ⟨lon, hlon⟩ := okOrVE_pyTry (okOrVE_dmsExc (fields.getD 5 "") (fields.getD 6 "")
    (fields.getD 7 "") (fields.getD 8 ""))
  obtain ⟨t, ht⟩ := parseTime_ok (fields.getD 0 "")
  obtain ⟨a9, h9⟩ := parseSF_ok (fields.getD 9 "")
  obtain ⟨a10, h10⟩ := parseFrequency_ok (fields.getD 10 "")
  obtain ⟨a11, h11⟩ := parsePower_ok (fields.getD 11 "")
  obtain ⟨a12, h12⟩ := parseDB_ok (fields.getD 12 "")
  obtain ⟨a13, h13⟩ := parseQ_ok (fields.getD 13 "")
  obtain ⟨a14, h14⟩ := parseSF_ok (fields.getD 14 "")
  obtain ⟨a15, h15⟩ := parseFrequency_ok (fields.getD 15 "")
  obtain ⟨a16, h16⟩ := parsePower_ok (fields.getD 16 "")
  obtain ⟨a17, h17⟩ := parseDB_ok (fields.getD 17 "")
  obtain ⟨a18, h18⟩ := parseQ_ok (fields.getD 18 "")
  rcases pyInt_cases (fields.getD 19 "") with h19 | ⟨n19, h19⟩
  · refine ⟨.valueError, ?_⟩
    unfold mkSample
    simp only [hlat, hlon, ht, h9, h10, h11, h12, h13, h14, h15, h16, h17, h18,
      h19, bindE_ok, bindE_err]
  · rcases pyInt_cases (fields.getD 20 "") with h20 | ⟨n20, h20⟩
    · refine ⟨.valueError, ?_⟩
      unfold mkSample
      simp only [hlat, hlon, ht, h9, h10, h11, h12, h13, h14, h15, h16, h17, h18,
        h19, h20, bindE_ok, bindE_err]
    · exfalso
      rw [h19, h20] at hbad
      simp [isOkE] at hbad

lemma parseLines_app (rest pre : List String) :
    ∀ (samples s2 : List AdeunisSample), parseLines samples pre = (s2, none) →
      parseLines samples (pre ++ rest) = parseLines s2 rest := by
  induction pre with
  | nil =>
    intro samples s2 h
    simp only [parseLines] at h
    injection h with h1 h2
    subst h1
    rfl
  | cons line pre ih =>
    intro samples s2 h
    simp only [parseLines] at h ⊢
    by_cases hl : (pySplit line).length = 22
    · rw [if_pos hl] at h ⊢
      cases hm : mkSample (pySplit line) with
      | ok smp =>
        rw [hm] at h
        simp only [hm]
        exact ih _ _ h
      | error e =>
        rw [hm] at h
        simp at h
    · rw [if_neg hl] at h ⊢
      exact ih _ _ h

/-- One sample per valid line, as a per-line function: `some` exactly for
22-token lines whose construction returns normally. -/
def sampleOfLine (line : String) : Option AdeunisSample :=
  let fields := pySplit line
  if fields.length = 22 then (mkSample fields).toOption else none

lemma parseLines_clean :
    ∀ (lines : List String) (samples : List AdeunisSample),
      (∀ line ∈ lines, (pySplit line).length = 22 →
        isOkE (pyInt ((pySplit line).getD 19 "")) = true ∧
        isOkE (pyInt ((pySplit line).getD 20 "")) = true) →
      parseLines samples lines = (samples ++ lines.filterMap sampleOfLine, none) := by
  intro lines
  induction lines with
  | nil => intro samples h; simp [parseLines]
  | cons line rest ih =>
    intro samples h
    simp only [parseLines]
    by_cases hl : (pySplit line).length = 22
    · have hc := h line (List.mem_cons_self _ _) hl
      obtain ⟨smp, hsmp⟩ := mkSample_ok _ hc.1 hc.2
      rw [if_pos hl]
      simp only [hsmp]
      rw [ih _ (fun l hm hq => h l (List.mem_cons_of_mem _ hm) hq)]
      simp [sampleOfLine, hl, hsmp, Except.toOption, List.filterMap_cons, List.append_assoc]
    · rw [if_neg hl, ih _ (fun l hm hq => h l (List.mem_cons_of_mem _ hm) hq)]
      simp [sampleOfLine, hl, List.filterMap_cons]

/-- Claim C2: on a 22-token line whose `ul` or `dl` token is not a valid
integer literal, `parse` raises, appends nothing for that line and aborts
the rest of the input, keeping the samples already appended; any other
per-field failure is soft — when both counters parse, a sample is always
constructed and returned normally. -/
theorem claim_C2 (samples s2 : List AdeunisSample) (pre : List String) (bad : String)
    (rest : List String)
    (hpre : parseLines samples pre = (s2, none))
    (hlen : (pySplit bad).length = 22)
    (hbad : (isOkE (pyInt ((pySplit bad).getD 19 "")) &&
             isOkE (pyInt ((pySplit bad).getD 20 ""))) = false) :
    (∃ e, parseLines samples (pre ++ bad :: rest) = (s2, some e)) ∧
    (∀ fields : List String,
      isOkE (pyInt (fields.getD 19 "")) = true →
      isOkE (pyInt (fields.getD 20 "")) = true →
      ∃ smp, mkSample fields = .ok smp) := by
  constructor
  · obtain ⟨e, he⟩ := mkSample_err (pySplit bad) hbad
    refine ⟨e, ?_⟩
    rw [parseLines_app (bad :: rest) pre samples s2 hpre]
    simp only [parseLines]
    rw [if_pos hlen, he]
  · intro fields h1 h2
    exact mkSample_ok fields h1 h2

/-- A 22-token log line whose `ul` counter token is malformed. -/
def badLineC2 : String :=
  "10:00:00 40 26 46 N 3 42 21 W SF7 868000kHz -2dBm 5dB 3 SF9 868000kHz -90dBm 4dB 2 xx 9 5%"

/-- The spec's end-to-end example line (all 22 tokens well-formed). -/
def goodLineC2 : String :=
  "10:00:00 40 26 46 N 3 42 21 W SF7 868000kHz -2dBm 5dB 3 SF9 868000kHz -90dBm 4dB 2 10 9 5%"

/-- Witness for claim C2 at a concrete log. -/
theorem claim_C2_witness :
    (∃ e, parseLines [] (["Adeunis FTD log"] ++ badLineC2 :: ["trailing line"]) = ([], some e)) ∧
    (∃ smp, mkSample (pySplit goodLineC2) = .ok smp) := by
  have h := claim_C2 [] [] ["Adeunis FTD log"] badLineC2 ["trailing line"]
    (by rfl) (by decide) (by decide)
  exact ⟨h.1, h.2 (pySplit goodLineC2) (by decide) (by decide)⟩

/-- A 22-token log line whose `dl` counter token is malformed. -/
def badLineC6 : String :=
  "10:00:00 40 26 46 N 3 42 21 W SF7 868000kHz -2dBm 5dB 3 SF9 868000kHz -90dBm 4dB 2 10 yy 5%"

/-- Counterexample to claim C6 as stated: a line with exactly 22 tokens for
which `parse` appends zero samples (its `dl` token is not an integer, so
the unguarded `int()` call aborts `parse` instead). -/
theorem claim_C6_cex :
    (pySplit badLineC6).length = 22 ∧
    parseLines [] [badLineC6] = ([], some PyErr.valueError) := by
  exact ⟨by decide, by decide⟩

/-- Claim C6, amended: a line whose whitespace split is not 22 tokens is
silently skipped and contributes no sample; when every 22-token line also
has integer `ul`/`dl` tokens, `parse` appends exactly one positionally
built sample per such line, in line order.  (As stated the claim fails:
a 22-token line with a malformed counter token contributes no sample and
aborts parsing, see the counterexample.) -/
theorem claim_C6 (samples : List AdeunisSample) (lines : List String)
    (h : ∀ line ∈ lines, (pySplit line).length = 22 →
      isOkE (pyInt ((pySplit line).getD 19 "")) = true ∧
      isOkE (pyInt ((pySplit line).getD 20 "")) = true) :
    parseLines samples lines = (samples ++ lines.filterMap sampleOfLine, none) ∧
    (∀ line : String, ¬(pySplit line).length = 22 → sampleOfLine line = none) ∧
    (∀ line ∈ lines, (pySplit line).length = 22 → ∃ smp, sampleOfLine line = some smp) := by
  refine ⟨parseLines_clean lines samples h, ?_, ?_⟩
  · intro line hl
    simp [sampleOfLine, hl]
  · intro line hm hl
    obtain ⟨smp, hsmp⟩ := mkSample_ok _ (h line hm hl).1 (h line hm hl).2
    exact ⟨smp, by simp [sampleOfLine, hl, hsmp, Except.toOption]⟩

/-- A fully well-formed 22-token log line distinct from the C2 witness. -/
def goodLineC6 : String :=
  "11:30:00 40 26 46 N 3 42 21 W SF12 868300kHz 14dBm -3dB 1 SF12 868300kHz -117dBm -5dB 1 25 24 4%"

/-- Witness for the amended claim C6 at a concrete log. -/
theorem claim_C6_witness :
    parseLines [] [goodLineC6, "RSSI noise header"] =
      ([] ++ List.filterMap sampleOfLine [goodLineC6, "RSSI noise header"], none) ∧
    (∃ smp, sampleOfLine goodLineC6 = some smp) := by
  have h := claim_C6 [] [goodLineC6, "RSSI noise header"] (by decide)
  exact ⟨h.1, h.2.2 goodLineC6 (List.mem_cons_self _ _) (by decide)⟩

lemma lookup_append (k : String) (l1 l2 : List (String × JValue)) :
    List.lookup k (l1 ++ l2) = (List.lookup k l1).or (List.lookup k l2) := by
  induction l1 with
  | nil => simp
  | cons p l ih =>
    obtain ⟨a, b⟩ := p
    by_cases hka : k = a
    · have hb : (k == a) = true := by simp [hka]
      simp [List.lookup, hb]
    · have hb : (k == a) = false := by simp [hka]
      simp [List.lookup, hb, ih]

lemma lookup_ite (k : String) (c : Prop) [Decidable c] (a b : List (String × JValue)) :
    List.lookup k (if c then a else b) = if c then List.lookup k a else List.lookup k b := by
  split <;> rfl

lemma geoProps_timestamp (day : PyDate) (t : PyTime) (s : AdeunisSample) :
    (geoProps day t s).lookup "timestamp" = some (.str (pyDatetimeStr day t)) := by
  simp [geoProps, List.lookup, lookup_append]

lemma geoProps_ul (day : PyDate) (t : PyTime) (s : AdeunisSample) :
    (geoProps day t s).lookup "ul" = some (.int s.ul) := by
  simp [geoProps, List.lookup, lookup_append]

lemma geoProps_dl (day : PyDate) (t : PyTime) (s : AdeunisSample) :
    (geoProps day t s).lookup "dl" = some (.int s.dl) := by
  simp [geoProps, List.lookup, lookup_append]

lemma geoProps_PER (day : PyDate) (t : PyTime) (s : AdeunisSample) :
    (geoProps day t s).lookup "PER" = some (jOptInt s.per) := by
  simp [geoProps, List.lookup, lookup_append]

lemma geoProps_uSF (day : PyDate) (t : PyTime) (s : AdeunisSample) :
    ((geoProps day t s).lookup "uSF").isSome = truthyInt s.uSF := by
  by_cases h : truthyInt s.uSF <;>
    simp [geoProps, jItem, lookup_append, lookup_ite, List.lookup, h]

lemma geoProps_uFrequency (day : PyDate) (t : PyTime) (s : AdeunisSample) :
    ((geoProps day t s).lookup "uFrequency").isSome = truthyInt s.uFrequency := by
  by_cases h : truthyInt s.uFrequency <;>
    simp [geoProps, jItem, lookup_append, lookup_ite, List.lookup, h]

lemma geoProps_uPower (day : PyDate) (t : PyTime) (s : AdeunisSample) :
    ((geoProps day t s).lookup "uPower").isSome = truthyInt s.uPower := by
  by_cases h : truthyInt s.uPower <;>
    simp [geoProps, jItem, lookup_append, lookup_ite, List.lookup, h]

lemma geoProps_uSNR (day : PyDate) (t : PyTime) (s : AdeunisSample) :
    ((geoProps day t s).lookup "uSNR").isSome = truthyInt s.uSNR := by
  by_cases h : truthyInt s.uSNR <;>
    simp [geoProps, jItem, lookup_append, lookup_ite, List.lookup, h]

lemma geoProps_uQ (day : PyDate) (t : PyTime) (s : AdeunisSample) :
    ((geoProps day t s).lookup "uQ").isSome = truthyInt s.uQ := by
  by_cases h : truthyInt s.uQ <;>
    simp [geoProps, jItem, lookup_append, lookup_ite, List.lookup, h]

lemma geoProps_dSF (day : PyDate) (t : PyTime) (s : AdeunisSample) :
    ((geoProps day t s).lookup "dSF").isSome = (truthyInt s.dFrequency && truthyInt s.dSF) := by
  by_cases h1 : truthyInt s.dFrequency <;> by_cases h2 : truthyInt s.dSF <;>
    simp [geoProps, jItem, lookup_append, lookup_ite, List.lookup, h1, h2]

lemma geoProps_dFrequency (day : PyDate) (t : PyTime) (s : AdeunisSample) :
    ((geoProps day t s).lookup "dFrequency").isSome = truthyInt s.dFrequency := by
  by_cases h1 : truthyInt s.dFrequency <;>
    simp [geoProps, jItem, lookup_append, lookup_ite, List.lookup, h1]

lemma geoProps_dRSSI (day : PyDate) (t : PyTime) (s : AdeunisSample) :
    ((geoProps day t s).lookup "dRSSI").isSome = (truthyInt s.dFrequency && truthyInt s.dRSSI) := by
  by_cases h1 : truthyInt s.dFrequency <;> by_cases h2 : truthyInt s.dRSSI <;>
    simp [geoProps, jItem, lookup_append, lookup_ite, List.lookup, h1, h2]

lemma geoProps_dSNR (day : PyDate) (t : PyTime) (s : AdeunisSample) :
    ((geoProps day t s).lookup "dSNR").isSome = (truthyInt s.dFrequency && truthyInt s.dSNR) := by
  by_cases h1 : truthyInt s.dFrequency <;> by_cases h2 : truthyInt s.dSNR <;>
    simp [geoProps, jItem, lookup_append, lookup_ite, List.lookup, h1, h2]

lemma geoProps_dQ (day : PyDate) (t : PyTime) (s : AdeunisSample) :
    ((geoProps day t s).lookup "dQ").isSome = (truthyInt s.dFrequency && truthyInt s.dQ) := by
  by_cases h1 : truthyInt s.dFrequency <;> by_cases h2 : truthyInt s.dQ <;>
    simp [geoProps, jItem, lookup_append, lookup_ite, List.lookup, h1, h2]

lemma isSome_false_none {α : Type} {o : Option α} (h : o.isSome = false) : o = none := by
  cases o with
  | none => rfl
  | some v => simp at h

/-- Claim C4, amended: for every retained sample whose time-of-day is
present, `toGeoJSON` returns one Feature with geometry
`(longitude, latitude)`, a properties mapping whose `timestamp`, `ul`,
`dl`, `PER` keys are always present, and whose radio keys occur only when
the corresponding field is truthy.  (As stated the claim also covers
samples with an absent time field; those instead make the unguarded
`datetime.combine` raise `TypeError` — see the counterexample.) -/
theorem claim_C4 (s : AdeunisSample) (day : PyDate) (t : PyTime) (h : s.time = some t) :
    s.toGeoJSON day = .ok ⟨(s.longitude, s.latitude), geoProps day t s⟩ ∧
    (geoProps day t s).lookup "timestamp" = some (.str (pyDatetimeStr day t)) ∧
    (geoProps day t s).lookup "ul" = some (.int s.ul) ∧
    (geoProps day t s).lookup "dl" = some (.int s.dl) ∧
    (geoProps day t s).lookup "PER" = some (jOptInt s.per) ∧
    (((geoProps day t s).lookup "uSF").isSome = true → truthyInt s.uSF = true) ∧
    (((geoProps day t s).lookup "uFrequency").isSome = true → truthyInt s.uFrequency = true) ∧
    (((geoProps day t s).lookup "uPower").isSome = true → truthyInt s.uPower = true) ∧
    (((geoProps day t s).lookup "uSNR").isSome = true → truthyInt s.uSNR = true) ∧
    (((geoProps day t s).lookup "uQ").isSome = true → truthyInt s.uQ = true) ∧
    (((geoProps day t s).lookup "dSF").isSome = true → truthyInt s.dSF = true) ∧
    (((geoProps day t s).lookup "dFrequency").isSome = true → truthyInt s.dFrequency = true) ∧
    (((geoProps day t s).lookup "dRSSI").isSome = true → truthyInt s.dRSSI = true) ∧
    (((geoProps day t s).lookup "dSNR").isSome = true → truthyInt s.dSNR = true) ∧
    (((geoProps day t s).lookup "dQ").isSome = true → truthyInt s.dQ = true) := by
  refine ⟨?_, geoProps_timestamp day t s, geoProps_ul day t s, geoProps_dl day t s,
    geoProps_PER day t s, ?_, ?_, ?_, ?_, ?_, ?_, ?_, ?_, ?_, ?_⟩
  · simp [AdeunisSample.toGeoJSON, h]
  · rw [geoProps_uSF]; exact id
  · rw [geoProps_uFrequency]; exact id
  · rw [geoProps_uPower]; exact id
  · rw [geoProps_uSNR]; exact id
  · rw [geoProps_uQ]; exact id
  · rw [geoProps_dSF]; exact fun hx => (Bool.and_eq_true .. ▸ hx).2
  · rw [geoProps_dFrequency]; exact id
  · rw [geoProps_dRSSI]; exact fun hx => (Bool.and_eq_true .. ▸ hx).2
  · rw [geoProps_dSNR]; exact fun hx => (Bool.and_eq_true .. ▸ hx).2
  · rw [geoProps_dQ]; exact fun hx => (Bool.and_eq_true .. ▸ hx).2

/-- The sample parsed from the spec's end-to-end example line. -/
def sampleC4w : AdeunisSample :=
  ⟨some ⟨10, 0, 0⟩, some (mkRat 72803 1800), some (mkRat (-4447) 1200), some 7, some 868000000,
   some (-2), some 5, some 3, some 9, some 868000000, some (-90), some 4, some 2, 10, 9, some 5⟩

/-- Witness for the amended claim C4 at a concrete sample. -/
theorem claim_C4_witness :
    sampleC4w.toGeoJSON ⟨2021, 9, 10⟩ =
      .ok ⟨(sampleC4w.longitude, sampleC4w.latitude), geoProps ⟨2021, 9, 10⟩ ⟨10, 0, 0⟩ sampleC4w⟩ ∧
    (geoProps ⟨2021, 9, 10⟩ ⟨10, 0, 0⟩ sampleC4w).lookup "timestamp" =
      some (.str "2021-09-10 10:00:00") := by
  have h := claim_C4 sampleC4w ⟨2021, 9, 10⟩ ⟨10, 0, 0⟩ rfl
  refine ⟨h.1, ?_⟩
  rw [h.2.1]
  rfl

/-- A retained sample (truthy longitude) with an absent time field. -/
def sampleC4x : AdeunisSample :=
  ⟨none, none, some 1, some 7, none, none, none, none, none, none, none, none, none, 3, 1, none⟩

/-- Counterexample to claim C4 as stated: a retained sample with absent
time makes `toGeoJSON` raise `TypeError` instead of producing a Feature
with the described properties. -/
theorem claim_C4_cex :
    keepSample sampleC4x = true ∧
    sampleC4x.toGeoJSON ⟨2021, 9, 10⟩ = .error PyErr.typeError :=
  ⟨rfl, rfl⟩

/-- Claim C10: with a falsy downlink frequency, the GeoJSON properties
contain none of the downlink keys and the XML extension block has no
downlink sub-element at all, even if other downlink fields are truthy;
each uplink key, by contrast, is gated only on its own value. -/
theorem claim_C10 (s : AdeunisSample) (day : PyDate) (t : PyTime)
    (h : truthyInt s.dFrequency = false) :
    (geoProps day t s).lookup "dSF" = none ∧
    (geoProps day t s).lookup "dFrequency" = none ∧
    (geoProps day t s).lookup "dRSSI" = none ∧
    (geoProps day t s).lookup "dSNR" = none ∧
    (geoProps day t s).lookup "dQ" = none ∧
    (∀ x ∈ (s.toXML "lora" "TrackPointExtension").childrenOf,
      ¬x.tagOf = nameNS "downlink" (some "lora")) ∧
    (∀ (s2 : AdeunisSample) (d2 : PyDate) (t2 : PyTime),
      ((geoProps d2 t2 s2).lookup "uSF").isSome = truthyInt s2.uSF ∧
      ((geoProps d2 t2 s2).lookup "uFrequency").isSome = truthyInt s2.uFrequency ∧
      ((geoProps d2 t2 s2).lookup "uPower").isSome = truthyInt s2.uPower ∧
      ((geoProps d2 t2 s2).lookup "uSNR").isSome = truthyInt s2.uSNR ∧
      ((geoProps d2 t2 s2).lookup "uQ").isSome = truthyInt s2.uQ) := by
  refine ⟨?_, ?_, ?_, ?_, ?_, ?_, ?_⟩
  · exact isSome_false_none (by rw [geoProps_dSF, h]; rfl)
  · exact isSome_false_none (by rw [geoProps_dFrequency, h])
  · exact isSome_false_none (by rw [geoProps_dRSSI, h]; rfl)
  · exact isSome_false_none (by rw [geoProps_dSNR, h]; rfl)
  · exact isSome_false_none (by rw [geoProps_dQ, h]; rfl)
  · intro x hx
    simp only [AdeunisSample.toXML, h, Bool.false_eq_true, if_false, XML.childrenOf,
      List.append_nil, List.singleton_append, List.mem_cons, List.mem_singleton,
      List.not_mem_nil, or_false] at hx
    rcases hx with rfl | rfl
    · simp only [XML.tagOf]
      decide
    · simp only [XML.tagOf]
      decide
  · intro s2 d2 t2
    exact ⟨geoProps_uSF d2 t2 s2, geoProps_uFrequency d2 t2 s2, geoProps_uPower d2 t2 s2,
      geoProps_uSNR d2 t2 s2, geoProps_uQ d2 t2 s2⟩

/-- A sample with `dFrequency` absent while `dSF`, `dRSSI`, `dSNR`, `dQ`
are present and non-zero. -/
def sampleC10w : AdeunisSample :=
  ⟨some ⟨12, 0, 0⟩, some 40, none, some 7, some 868000000, some 14, some 5, some 3,
   some 9, none, some (-90), some 4, some 2, 8, 7, some 12⟩

/-- Witness for claim C10 at a concrete sample. -/
theorem claim_C10_witness :
    (geoProps ⟨2021, 9, 10⟩ ⟨12, 0, 0⟩ sampleC10w).lookup "dSF" = none ∧
    (geoProps ⟨2021, 9, 10⟩ ⟨12, 0, 0⟩ sampleC10w).lookup "dRSSI" = none ∧
    ((geoProps ⟨2021, 9, 10⟩ ⟨12, 0, 0⟩ sampleC10w).lookup "uSF").isSome =
      truthyInt sampleC10w.uSF := by
  have h := claim_C10 sampleC10w ⟨2021, 9, 10⟩ ⟨12, 0, 0⟩ rfl
  exact ⟨h.1, h.2.2.1, (h.2.2.2.2.2.2 sampleC10w ⟨2021, 9, 10⟩ ⟨12, 0, 0⟩).1⟩

/-- Claim C5, amended: in "cross" mode every waypoint gets the fixed cross
symbol; in "downlink" ("uplink") mode the symbol is the palette symbol
keyed by the downlink (uplink) quality for quality values 1–3, the
"missing" symbol when the quality is absent OR ZERO, and the "unknown"
symbol when the quality is non-zero and outside 0–3.  (As stated the claim
gives the palette symbol for quality 0 as well; the code's truthiness gate
sends quality 0 to the "missing" symbol — see the counterexample.) -/
theorem claim_C5 (s : AdeunisSample) :
    symbolFor "cross" s = "Crossing" ∧
    (s.dQ = none → symbolFor "downlink" s = Q_SYMBOL_MISSING) ∧
    (s.dQ = some 0 → symbolFor "downlink" s = Q_SYMBOL_MISSING) ∧
    (∀ q : Int, s.dQ = some q → 1 ≤ q → q ≤ 3 →
      symbolFor "downlink" s = (Q_SYMBOLS q).getD Q_SYMBOL_UNKNOWN ∧ (Q_SYMBOLS q).isSome = true) ∧
    (∀ q : Int, s.dQ = some q → ¬q = 0 → (q < 0 ∨ 3 < q) →
      symbolFor "downlink" s = Q_SYMBOL_UNKNOWN) ∧
    (s.uQ = none → symbolFor "uplink" s = Q_SYMBOL_MISSING) ∧
    (s.uQ = some 0 → symbolFor "uplink" s = Q_SYMBOL_MISSING) ∧
    (∀ q : Int, s.uQ = some q → 1 ≤ q → q ≤ 3 →
      symbolFor "uplink" s = (Q_SYMBOLS q).getD Q_SYMBOL_UNKNOWN ∧ (Q_SYMBOLS q).isSome = true) ∧
    (∀ q : Int, s.uQ = some q → ¬q = 0 → (q < 0 ∨ 3 < q) →
      symbolFor "uplink" s = Q_SYMBOL_UNKNOWN) := by
  refine ⟨?_, ?_, ?_, ?_, ?_, ?_, ?_, ?_, ?_⟩
  · simp [symbolFor]
  · intro h
    simp [symbolFor, truthyInt, h]
  · intro h
    simp [symbolFor, truthyInt, h]
  · intro q hq h1 h3
    have hne : ¬q = 0 := by omega
    constructor
    · simp [symbolFor, truthyInt, hq, hne]
    · interval_cases q <;> simp [Q_SYMBOLS]
  · intro q hq hne hout
    have h0 : ¬q = 0 := hne
    have hx1 : ¬q = 1 := by omega
    have hx2 : ¬q = 2 := by omega
    have hx3 : ¬q = 3 := by omega
    simp [symbolFor, truthyInt, hq, h0, Q_SYMBOLS, hx1, hx2, hx3]
  · intro h
    simp [symbolFor, truthyInt, h]
  · intro h
    simp [symbolFor, truthyInt, h]
  · intro q hq h1 h3
    have hne : ¬q = 0 := by omega
    constructor
    · simp [symbolFor, truthyInt, hq, hne]
    · interval_cases q <;> simp [Q_SYMBOLS]
  · intro q hq hne hout
    have h0 : ¬q = 0 := hne
    have hx1 : ¬q = 1 := by omega
    have hx2 : ¬q = 2 := by omega
    have hx3 : ¬q = 3 := by omega
    simp [symbolFor, truthyInt, hq, h0, Q_SYMBOLS, hx1, hx2, hx3]

/-- A retained sample with downlink quality exactly 0. -/
def sampleC5x : AdeunisSample :=
  ⟨none, some 1, none, none, none, none, none, some 0, none, none, none, none, some 0, 0, 0, none⟩

/-- Counterexample to claim C5 as stated: with downlink quality 0 (inside
the claimed 0–3 palette range) the symbol is the "missing" symbol, not the
palette symbol keyed by 0. -/
theorem claim_C5_cex :
    sampleC5x.dQ = some 0 ∧
    symbolFor "downlink" sampleC5x = "Navaid, Black" ∧
    Q_SYMBOLS 0 = some "Navaid, Red" ∧
    ¬symbolFor "downlink" sampleC5x = (Q_SYMBOLS 0).getD Q_SYMBOL_UNKNOWN := by
  refine ⟨rfl, rfl, rfl, ?_⟩
  decide

/-- A sample with downlink quality 2 and uplink quality 7. -/
def sampleC5w : AdeunisSample :=
  ⟨none, some 1, none, none, none, none, none, some 7, none, none, none, none, some 2, 0, 0, none⟩

/-- Witness for the amended claim C5 at a concrete sample. -/
theorem claim_C5_witness :
    symbolFor "cross" sampleC5w = "Crossing" ∧
    symbolFor "downlink" sampleC5w = (Q_SYMBOLS 2).getD Q_SYMBOL_UNKNOWN ∧
    symbolFor "uplink" sampleC5w = Q_SYMBOL_UNKNOWN := by
  have h := claim_C5 sampleC5w
  refine ⟨h.1, ?_, ?_⟩
  · exact (h.2.2.2.1 2 rfl (by norm_num) (by norm_num)).1
  · exact h.2.2.2.2.2.2.2.2 7 rfl (by norm_num) (Or.inr (by norm_num))

/-- The Feature built for a retained sample whose time is present. -/
def featureOf (day : PyDate) (s : AdeunisSample) : Feature :=
  ⟨(s.longitude, s.latitude), geoProps day (s.time.getD ⟨0, 0, 0⟩) s⟩

lemma csvRows_filter (day : PyDate) (l : List AdeunisSample) :
    csvRows day l = (l.filter keepSample).map (csvRow day) := by
  induction l with
  | nil => rfl
  | cons s rest ih =>
    by_cases h : keepSample s <;> simp [csvRows, h, ih, List.filter_cons]

lemma gpxPoints_filter (day : PyDate) (markers : String) (l : List AdeunisSample) :
    gpxPoints day markers l = (l.filter keepSample).map (gpxPoint day markers) := by
  induction l with
  | nil => rfl
  | cons s rest ih =>
    by_cases h : keepSample s <;> simp [gpxPoints, h, ih, List.filter_cons]

lemma geoFeatures_filter (day : PyDate) (l : List AdeunisSample)
    (h : ∀ s ∈ l, keepSample s = true → s.time.isSome = true) :
    geoFeatures day l = .ok ((l.filter keepSample).map (featureOf day)) := by
  induction l with
  | nil => rfl
  | cons s rest ih =>
    have hrest := fun x hx => h x (List.mem_cons_of_mem _ hx)
    by_cases hk : keepSample s
    · have hs := h s (List.mem_cons_self _ _) hk
      obtain ⟨t, ht⟩ := Option.isSome_iff_exists.mp hs
      simp [geoFeatures, hk, AdeunisSample.toGeoJSON, ht, ih hrest, featureOf,
        List.filter_cons]
    · simp [geoFeatures, hk, ih hrest, List.filter_cons]

/-- Claim C1, amended: in each serializer's body a sample appears exactly
when at least one coordinate is truthy — unconditionally for CSV and GPX,
and for GeoJSON provided every retained sample has a present time field.
(As stated the claim also promises GeoJSON rendering for retained samples
with absent time; those make the serializer raise `TypeError` and render
nothing — see the counterexample.) -/
theorem claim_C1 (samples : List AdeunisSample) (day : PyDate) (markers : String) :
    csvRows day samples = (samples.filter keepSample).map (csvRow day) ∧
    gpxPoints day markers samples = (samples.filter keepSample).map (gpxPoint day markers) ∧
    ((∀ s ∈ samples, keepSample s = true → s.time.isSome = true) →
      geoFeatures day samples = .ok ((samples.filter keepSample).map (featureOf day))) :=
  ⟨csvRows_filter day samples, gpxPoints_filter day markers samples,
   geoFeatures_filter day samples⟩

/-- A retained sample (truthy latitude) with an absent time field. -/
def sampleC1x : AdeunisSample :=
  ⟨none, some (mkRat 1 2), none, none, none, none, none, none, none, none, none, none, none, 1, 0, none⟩

/-- Counterexample to claim C1 as stated: this sample has a truthy
coordinate yet is rendered by no GeoJSON body — the serializer raises. -/
theorem claim_C1_cex :
    keepSample sampleC1x = true ∧
    geoFeatures ⟨2021, 9, 11⟩ [sampleC1x] = .error PyErr.typeError := by
  constructor
  · decide
  · decide

/-- A retained sample with all fields populated. -/
def sampleC1a : AdeunisSample :=
  ⟨some ⟨9, 30, 0⟩, some 40, some (-3), some 7, some 868000000, some 14, some (-2),
   some 3, some 9, some 868500000, some (-90), some 4, some 2, 5, 4, some 20⟩

/-- A sample skipped by the coordinate pre-filter (latitude exactly 0,
longitude absent). -/
def sampleC1b : AdeunisSample :=
  ⟨some ⟨9, 31, 0⟩, some 0, none, none, none, none, none, none, none, none, none,
   none, none, 6, 5, some 17⟩

/-- Witness for the amended claim C1 at a concrete two-sample log. -/
theorem claim_C1_witness :
    csvRows ⟨2021, 9, 12⟩ [sampleC1a, sampleC1b] =
      ([sampleC1a, sampleC1b].filter keepSample).map (csvRow ⟨2021, 9, 12⟩) ∧
    gpxPoints ⟨2021, 9, 12⟩ "downlink" [sampleC1a, sampleC1b] =
      ([sampleC1a, sampleC1b].filter keepSample).map (gpxPoint ⟨2021, 9, 12⟩ "downlink") ∧
    geoFeatures ⟨2021, 9, 12⟩ [sampleC1a, sampleC1b] =
      .ok (([sampleC1a, sampleC1b].filter keepSample).map (featureOf ⟨2021, 9, 12⟩)) := by
  have h := claim_C1 [sampleC1a, sampleC1b] ⟨2021, 9, 12⟩ "downlink"
  exact ⟨h.1, h.2.1, h.2.2 (by decide)⟩

end Adeunis
